import Mathlib

/-!
Verification development for the query-interpretation core of the
immich-search service (src/app/main.py).

The Python source is shallowly embedded.  Strings are modelled as `List Char`
(`Str`), mirroring Python's character-level string operations (`in`,
`replace`, `split`, `strip`, `lower`, `find`), restricted to ASCII case
folding and ASCII digits, which is all the embedded code paths exercise.
External collaborators (the `dateparser` library, `datetime.now()`, the spaCy
entity recognizer and the geonamescache gazetteers) are modelled as oracle
parameters collected in an `Oracles` record.  Uncaught Python exceptions are
modelled by `Option`: a `none` result of `parse_query` means the request
raised instead of returning a payload.

Recursive helpers that are not structurally recursive are written with an
explicit fuel argument (fuel = input length is always sufficient and is what
the wrappers pass), keeping every definition kernel-computable.
-/

/-- Python strings, as character lists. -/
abbrev Str := List Char

/-- Character list of a literal. -/
def S (s : String) : Str := s.data

/-- Python whitespace (`str.split`, `str.strip`, regex `\s`), ASCII range. -/
def pyWs (c : Char) : Bool :=
  c = ' ' || c = '\t' || c = '\n' || c = '\r' || c = '\x0b' || c = '\x0c'

/-- Regex word character `\w` (ASCII range). -/
def isWordC (c : Char) : Bool := c.isAlphanum || c = '_'

/-- Python `sub in s` substring test. -/
def containsSub (pat : Str) : Str → Bool
  | [] => pat.isPrefixOf ([] : Str)
  | c :: rest => pat.isPrefixOf (c :: rest) || containsSub pat rest

/-- Fueled worker for Python `s.replace(old, new)`: leftmost non-overlapping
replacement of every occurrence, scanning left to right. -/
def replaceAllGo (old new : Str) : Nat → Str → Str
  | _, [] => []
  | 0, s => s
  | fuel + 1, c :: rest =>
    if (!old.isEmpty) && old.isPrefixOf (c :: rest) then
      new ++ replaceAllGo old new fuel (List.drop (old.length - 1) rest)
    else
      c :: replaceAllGo old new fuel rest

/-- Python `s.replace(old, new)` (for non-empty `old`, the only use here). -/
def replaceAll (old new s : Str) : Str := replaceAllGo old new s.length s

/-- Python `s.split(sep, 1)`: `none` when `sep` does not occur, otherwise the
parts before and after the first occurrence. -/
def splitOnce (sep : Str) : Str → Option (Str × Str)
  | [] => if sep.isPrefixOf ([] : Str) then some ([], []) else none
  | c :: rest =>
    if sep.isPrefixOf (c :: rest) then some ([], List.drop (sep.length - 1) rest)
    else (splitOnce sep rest).map (fun p => (c :: p.1, p.2))

/-- Python `s.split(sep)` for a one-character separator, keeping empty parts. -/
def splitAll (sep : Char) : Str → List Str
  | [] => [[]]
  | c :: rest =>
    if c = sep then [] :: splitAll sep rest
    else
      match splitAll sep rest with
      | t :: ts => (c :: t) :: ts
      | [] => [[c]]

/-- Fueled worker for Python `s.split()` (split on whitespace runs, no empty
tokens). -/
def splitWsGo : Nat → Str → List Str
  | _, [] => []
  | 0, s => [s]
  | fuel + 1, c :: rest =>
    if pyWs c then splitWsGo fuel rest
    else (c :: rest.takeWhile (fun d => !pyWs d)) :: splitWsGo fuel (rest.dropWhile (fun d => !pyWs d))

/-- Python `s.split()`. -/
def splitWsPy (s : Str) : List Str := splitWsGo s.length s

/-- Python `s.strip()`. -/
def stripPy (s : Str) : Str :=
  ((s.dropWhile pyWs).reverse.dropWhile pyWs).reverse

/-- Python `" ".join(parts)`. -/
def joinSp (parts : List Str) : Str := List.intercalate (S " ") parts

/-- Python `s.lower()` (ASCII case folding). -/
def lowerStr (s : Str) : Str := s.map Char.toLower

/-- Python `s.find(sub)`: index of the first occurrence (`none` for -1). -/
def findSub (pat : Str) : Str → Option Nat
  | [] => if pat.isPrefixOf ([] : Str) then some 0 else none
  | c :: rest =>
    if pat.isPrefixOf (c :: rest) then some 0
    else (findSub pat rest).map (· + 1)

/-- Decimal digit character. -/
def digitChar : Nat → Char
  | 0 => '0' | 1 => '1' | 2 => '2' | 3 => '3' | 4 => '4'
  | 5 => '5' | 6 => '6' | 7 => '7' | 8 => '8' | _ => '9'

/-- Fueled worker for Python `str(n)` on a natural number. -/
def natToDigitsGo : Nat → Nat → Str
  | 0, n => [digitChar (n % 10)]
  | fuel + 1, n => if n < 10 then [digitChar n] else natToDigitsGo fuel (n / 10) ++ [digitChar (n % 10)]

/-- Python `str(n)` for a natural number. -/
def natToDigits (n : Nat) : Str := natToDigitsGo n n

/-- Two-digit zero-padded field of `isoformat`/`strftime`. -/
def pad2 (n : Nat) : Str := [digitChar (n / 10 % 10), digitChar (n % 10)]

/-- Four-digit zero-padded year field. -/
def pad4 (n : Nat) : Str :=
  [digitChar (n / 1000 % 10), digitChar (n / 100 % 10), digitChar (n / 10 % 10), digitChar (n % 10)]

/-- `"%Y-%m-%d"` date string. -/
def fmtDate (y m d : Nat) : Str := pad4 y ++ '-' :: pad2 m ++ '-' :: pad2 d

/-- The slice of a Python `datetime` the source manipulates. -/
structure PyDateTime where
  year : Nat
  month : Nat
  day : Nat
  hour : Nat
  minute : Nat
  second : Nat
deriving DecidableEq, Repr

/-- Python `datetime.isoformat()` with zero microseconds. -/
def isoformat (d : PyDateTime) : Str :=
  fmtDate d.year d.month d.day ++ 'T' :: (pad2 d.hour ++ ':' :: pad2 d.minute ++ ':' :: pad2 d.second)

/-- Python `s.split("T")[0]`. -/
def splitTfirst (s : Str) : Str :=
  match splitOnce (S "T") s with
  | some p => p.1
  | none => s

/-- Gregorian leap-year rule, as used by `calendar.monthrange`. -/
def isLeapYear (y : Nat) : Bool :=
  (y % 4 == 0 && y % 100 != 0) || y % 400 == 0

/-- `calendar.monthrange(y, m)[1]`: number of days of month `m` of year `y`. -/
def monthrangeDays (y m : Nat) : Nat :=
  if m = 2 then (if isLeapYear y then 29 else 28)
  else if m = 4 ∨ m = 6 ∨ m = 9 ∨ m = 11 then 30
  else 31

/-- Python `token.isdigit()` (ASCII digits). -/
def isdigitPy (tok : Str) : Bool := !tok.isEmpty && tok.all Char.isDigit

/-- `any(token.isdigit() for token in s.split())`. -/
def hasDigitToken (s : Str) : Bool := (splitWsPy s).any isdigitPy

/-- `any(token.isdigit() for token in s)` where `s` is a string: iterating a
Python string yields single characters, so this is a character-level digit
test (unlike the token-level test of line 73). -/
def hasDigitChar (s : Str) : Bool := s.any Char.isDigit

example : containsSub (S "rom") (S " from ") = true := by decide
example : replaceAll (S " and ") (S " to ") (S "a and b and c") = S "a to b to c" := by decide
example : splitOnce (S " to ") (S "jan 5 to march 10") = some (S "jan 5", S "march 10") := by decide
example : splitAll ',' (S "a,, b") = [S "a", S "", S " b"] := by decide
example : splitWsPy (S "  a bc  d ") = [S "a", S "bc", S "d"] := by decide
example : stripPy (S "  ab c  ") = S "ab c" := by decide
example : lowerStr (S "AusTin, TX") = S "austin, tx" := by decide
example : findSub (S "pixel") (S "my pixel 7") = some 3 := by decide
example : natToDigits 2026 = S "2026" := by decide
example : natToDigits 0 = S "0" := by decide
example : fmtDate 2024 7 31 = S "2024-07-31" := by decide
example : isoformat ⟨2024, 2, 29, 23, 59, 59⟩ = S "2024-02-29T23:59:59" := by decide
example : splitTfirst (S "2024-02-29T23:59:59") = S "2024-02-29" := by decide
example : monthrangeDays 2024 2 = 29 := by decide
example : monthrangeDays 2023 2 = 28 := by decide
example : monthrangeDays 2024 7 = 31 := by decide
example : hasDigitToken (S "jan 5") = true := by decide
example : hasDigitToken (S "b1") = false := by decide

/-! ## Oracles for the external collaborators -/

/-- The external dependencies of `parse_query`, as oracles:
`dateparse pref s` models `dateparser.parse(s, settings={"PREFER_DAY_OF_MONTH": pref})`;
`nowYear` models `datetime.now().year`; `ner` models the spaCy pipeline,
returning `(ent.text, ent.label_)` pairs for the given text; `knownStates` and
`knownCountries` model membership in the lowercased geonamescache name sets. -/
structure Oracles where
  dateparse : Str → Str → Option PyDateTime
  nowYear : Nat
  ner : Str → List (Str × Str)
  knownStates : Str → Bool
  knownCountries : Str → Bool

/-! ## The Python source, step by step -/

/-- Lines 71-83: `parse_date_str(date_str, prefer_day)`.  Appends the current
year when no token of the phrase is purely numeric, delegates to `dateparser`
with the given `PREFER_DAY_OF_MONTH` preference, clamps the time-of-day and
returns the isoformat string; `none` models Python's `return None`. -/
def parse_date_str (O : Oracles) (date_str0 prefer_day : Str) : Option Str :=
  let date_str := if !hasDigitToken date_str0 then date_str0 ++ ' ' :: natToDigits O.nowYear else date_str0
  match O.dateparse prefer_day date_str with
  | some dt =>
    let dt := if prefer_day = S "first"
      then { dt with hour := 0, minute := 0, second := 0 }
      else { dt with hour := 23, minute := 59, second := 59 }
    some (isoformat dt)
  | none => none

/-- Lines 89-94: `filter_date_tokens` drops the extraneous tokens from a date
phrase and rejoins with single spaces. -/
def filter_date_tokens (date_str : Str) : Str :=
  let extraneous := [S "taken", S "with", S "iphone", S "pixel", S "nikon", S "canon", S "sony", S "by", S "on", S ","]
  joinSp ((splitWsPy date_str).filter (fun tok => !extraneous.contains tok))

/-- Lines 119-124 applied to the raw trailing part: strip, filter extraneous
tokens, and keep at most the first two tokens as the month/year anchor. -/
def endCandidate (raw2 : Str) : Str :=
  let date2_str := filter_date_tokens (stripPy raw2)
  let tokens_date2 := splitWsPy date2_str
  if tokens_date2.length < 2 then date2_str else joinSp (tokens_date2.take 2)

/-- Lines 128-130: append the year discovered from the anchor (or the current
year when the anchor failed) when the leading phrase contains no digit
character — line 128 iterates `date1_str` itself, yielding characters, so
the test is character-level. -/
def startPhrase (O : Oracles) (dt_temp : Option PyDateTime) (date1_str : Str) : Str :=
  if !hasDigitChar date1_str then
    date1_str ++ ' ' :: natToDigits (match dt_temp with | some d => d.year | none => O.nowYear)
  else date1_str

/-- Line 114: normalize `" through "`→`" to "`, `" between "`→`" from "`,
`" and "`→`" to "`. -/
def normalizeText (lt : Str) : Str :=
  replaceAll (S " and ") (S " to ") (replaceAll (S " between ") (S " from ") (replaceAll (S " through ") (S " to ") lt))

/-! ## The bare-year regex (lines 145-146)

The source pattern is
`(?:(?:\b(?:taken|created)\b.*?\bin\s+)|(?:\bin\s+))(?P<year>\d{4})\b` over
the already-lowercased text.  Both alternatives end in `\bin\s+(\d{4})\b`, the
first merely prefixes `\b(taken|created)\b.*?` (with a lazy `.*?` whose first
viable continuation is again the leftmost following `\bin\s+\d{4}\b`).  Hence
`re.search` succeeds iff `\bin\s+\d{4}\b` occurs somewhere, and the captured
year group is always that of the leftmost such occurrence, which is what this
embedding computes directly: a position where `in` is preceded by a
non-word-character boundary, followed by at least one whitespace, four ASCII
digits and a trailing word boundary. -/

/-- `\d{4}\b` at the head of the string, returning the year value. -/
def fourDigitYear : Str → Option Nat
  | a :: b :: c :: d :: rest =>
    if a.isDigit && b.isDigit && c.isDigit && d.isDigit &&
        (match rest with | [] => true | e :: _ => !isWordC e) then
      some ((((a.toNat - 48) * 10 + (b.toNat - 48)) * 10 + (c.toNat - 48)) * 10 + (d.toNat - 48))
    else none
  | _ => none

/-- Skip the rest of a whitespace run, then require `\d{4}\b`. -/
def skipWsYear : Str → Option Nat
  | [] => none
  | c :: rest => if pyWs c then skipWsYear rest else fourDigitYear (c :: rest)

/-- `\s+\d{4}\b` at the head of the string. -/
def wsThenYear : Str → Option Nat
  | [] => none
  | c :: rest => if pyWs c then skipWsYear rest else none

/-- `\bin\s+(\d{4})\b` anchored at the head of the string, the previous
character (if any) supplied for the word boundary check. -/
def tryInYear (prev : Option Char) : Str → Option Nat
  | 'i' :: 'n' :: rest =>
    if (match prev with | none => true | some pc => !isWordC pc) then wsThenYear rest else none
  | _ => none

/-- Leftmost match of `\bin\s+(\d{4})\b`. -/
def yearSearchGo : Option Char → Str → Option Nat
  | _, [] => none
  | prev, c :: rest =>
    match tryInYear prev (c :: rest) with
    | some y => some y
    | none => yearSearchGo (some c) rest

/-- `re.search` of the source's bare-year pattern: the captured year group, or
`none` when the pattern does not match. -/
def yearRegexSearch (s : Str) : Option Nat := yearSearchGo none s

example : yearRegexSearch (S "dogs taken in 2022") = some 2022 := by decide
example : yearRegexSearch (S "dogs in 2023") = some 2023 := by decide
example : yearRegexSearch (S "in 20225") = none := by decide
example : yearRegexSearch (S "fin 2022") = none := by decide
example : yearRegexSearch (S "in2022") = none := by decide
example : yearRegexSearch (S "dogs") = none := by decide

/-! ## The structured result (lines 49-63) -/

/-- The mutable `structured` dict of `parse_query`. -/
structure Structured where
  city : Option Str
  state : Option Str
  country : Option Str
  createdAfter : Option Str
  createdBefore : Option Str
  takenAfter : Option Str
  takenBefore : Option Str
  isArchived : Bool
  isFavorite : Bool
  isMotion : Bool
  make : Option Str
  model : Option Str
  remainingQuery : Str
deriving DecidableEq, Repr

/-- Lines 49-63: the initial `structured` dict for input `t`. -/
def initStructured (t : Str) : Structured :=
  { city := none, state := none, country := none,
    createdAfter := none, createdBefore := none,
    takenAfter := none, takenBefore := none,
    isArchived := false, isFavorite := false, isMotion := false,
    make := none, model := none, remainingQuery := t }

/-- Python truthiness of an optional string (`if x and ...`). -/
def pyTruthyOpt : Option Str → Bool
  | none => false
  | some s => !s.isEmpty

/-! ## Step 1: boolean flags (lines 99-104) -/

/-- Lines 99-104: keyword-presence boolean flags over the lowercased text. -/
def flagsStep (lt : Str) (st : Structured) : Structured :=
  let st := if containsSub (S "archived") lt then { st with isArchived := true } else st
  let st := if containsSub (S "favorite") lt || containsSub (S "favourite") lt then { st with isFavorite := true } else st
  if containsSub (S "motion") lt then { st with isMotion := true } else st

/-! ## Step 2: date ranges (lines 111-152) -/

/-- Line 111-112: the explicit-range pattern condition. -/
def explicitCond (lt : Str) : Bool :=
  (containsSub (S " from ") lt && (containsSub (S " to ") lt || containsSub (S " through ") lt)) ||
  (containsSub (S " between ") lt && containsSub (S " and ") lt)

/-- Lines 145-146 as a condition: the bare-year regex matches. -/
def yearCond (lt : Str) : Bool := (yearRegexSearch lt).isSome

/-- Lines 115-142 on the already-normalized text.  `none` models an uncaught
exception: the `IndexError` of `split(" from ", 1)[1]` when `" from "` is
absent, and the `AttributeError` of `parse_date_str(...).split("T")[0]` when
`parse_date_str` returned `None`. -/
def explicitCore (O : Oracles) (normalized : Str) (st : Structured) : Option Structured :=
  match splitOnce (S " from ") normalized with
  | none => none
  | some pr =>
    match splitOnce (S " to ") pr.2 with
    | none => some st
    | some pq =>
      match parse_date_str O (startPhrase O (O.dateparse (S "first") (endCandidate pq.2)) (stripPy pq.1)) (S "first") with
      | none => none
      | some s1 =>
        match O.dateparse (S "first") (endCandidate pq.2) with
        | some d =>
          some { st with
                  takenAfter := some (splitTfirst s1),
                  takenBefore := some (splitTfirst (isoformat { d with day := monthrangeDays d.year d.month })) }
        | none =>
          match parse_date_str O (filter_date_tokens (stripPy pq.2)) (S "last") with
          | none => none
          | some s2 => some { st with takenAfter := some (splitTfirst s1), takenBefore := some (splitTfirst s2) }

/-- Lines 113-142: the explicit-range branch. -/
def explicitRangeBranch (O : Oracles) (lt : Str) (st : Structured) : Option Structured :=
  explicitCore O (normalizeText lt) st

/-- glibc `strftime("%Y-%m-%d")` as called on lines 149-150: month and day
are zero-padded, but `%Y` prints the year unpadded, so years below 1000
yield fewer than four digits. -/
def strfDate (y m d : Nat) : Str := natToDigits y ++ '-' :: pad2 m ++ '-' :: pad2 d

/-- Lines 147-152: the bare-year branch body.  The regex can capture the year
`0000`, for which `datetime(0, 1, 1)` raises `ValueError` (years must be in
1..9999, and four digits cannot exceed 9999); that uncaught exception is
modelled as `none`. -/
def yearBranch (lt : Str) (st : Structured) : Option Structured :=
  match yearRegexSearch lt with
  | some year =>
    if year = 0 then none
    else some { st with takenAfter := some (strfDate year 1 1), takenBefore := some (strfDate year 12 31) }
  | none => some st

/-- Lines 111-152: the two date-range strategies, explicit range first,
bare-year `elif` second. -/
def dateRangeStep (O : Oracles) (lt : Str) (st : Structured) : Option Structured :=
  if explicitCond lt then explicitRangeBranch O lt st
  else if yearCond lt then yearBranch lt st
  else some st

/-! ## Step 3: location resolution (lines 157-206) -/

/-- Lines 191-199: one pass of the token-classification loop of the no-comma
branch, accumulating unclassified city tokens, the (last) state hit, and
writing a country hit straight into `structured` when none is set yet. -/
def locNoCommaGo (O : Oracles) : List Str → List Str → Option Str → Structured → List Str × Option Str × Structured
  | [], city_parts, state_candidate, st => (city_parts, state_candidate, st)
  | part :: rest, city_parts, state_candidate, st =>
    let lower_part := lowerStr part
    if O.knownStates lower_part then locNoCommaGo O rest city_parts (some part) st
    else if O.knownCountries lower_part then
      locNoCommaGo O rest city_parts state_candidate
        (if st.country = none then { st with country := some part } else st)
    else locNoCommaGo O rest (city_parts ++ [part]) state_candidate st

/-- Lines 191-199: the whole token-classification loop of the no-comma branch. -/
def locNoCommaScan (O : Oracles) (st : Structured) (parts : List Str) :
    List Str × Option Str × Structured :=
  locNoCommaGo O parts [] none st

/-- Lines 164-206: processing of one place-like entity span. -/
def locationEnt (O : Oracles) (st : Structured) (loc_text : Str) : Structured :=
  if containsSub (S ",") loc_text then
    let parts := (splitAll ',' loc_text).map stripPy
    let cps := parts.foldl (fun acc part =>
      let lower_part := lowerStr part
      if O.knownStates lower_part then (acc.1, some part, acc.2.2)
      else if O.knownCountries lower_part then (acc.1, acc.2.1, some part)
      else if acc.1 = none then (some part, acc.2.1, acc.2.2)
      else acc)
      ((none : Option Str), (none : Option Str), (none : Option Str))
    let st := if pyTruthyOpt cps.1 && st.city.isNone then { st with city := cps.1 } else st
    let st := if pyTruthyOpt cps.2.1 && st.state.isNone then { st with state := cps.2.1 } else st
    if pyTruthyOpt cps.2.2 && st.country.isNone then { st with country := cps.2.2 } else st
  else
    let r := locNoCommaScan O st (splitWsPy loc_text)
    let st := r.2.2
    let st := if !r.1.isEmpty && st.city.isNone then { st with city := some (joinSp r.1) } else st
    let st := if pyTruthyOpt r.2.1 && st.state.isNone then { st with state := r.2.1 } else st
    if pyTruthyOpt r.2.1 && st.country.isNone then { st with country := some (S "United States") } else st

/-- Lines 161-206: fold over the recognizer's entity spans, consuming the
place-like labels. -/
def locationStep (O : Oracles) (user_text : Str) (st : Structured) : Structured :=
  (O.ner user_text).foldl (fun st ent =>
    if ent.2 = S "GPE" ∨ ent.2 = S "LOC" then locationEnt O st ent.1 else st) st

/-! ## Step 4: device make/model (lines 211-244) -/

/-- The shared shape of the iphone/pixel/galaxy model inference: inspect the
token immediately after the first keyword occurrence; a purely numeric token
is appended to the capitalized model name. -/
def brandModel (lt keyword modelName : Str) (st : Structured) : Structured :=
  match findSub keyword lt with
  | some idx =>
    match splitWsPy (lt.drop idx) with
    | _ :: t1 :: _ =>
      if isdigitPy t1 then { st with model := some (modelName ++ ' ' :: t1) }
      else { st with model := some modelName }
    | _ => { st with model := some modelName }
  | none => st

/-- Lines 211-219: the iphone check. -/
def deviceIphone (lt : Str) (st : Structured) : Structured :=
  if containsSub (S "iphone") lt then
    brandModel lt (S "iphone") (S "iPhone") { st with make := some (S "Apple") }
  else st

/-- Lines 221-228: the pixel check. -/
def devicePixel (lt : Str) (st : Structured) : Structured :=
  if containsSub (S "pixel") lt then
    brandModel lt (S "pixel") (S "Pixel") { st with make := some (S "Google") }
  else st

/-- Lines 230-237: the galaxy check. -/
def deviceGalaxy (lt : Str) (st : Structured) : Structured :=
  if containsSub (S "galaxy") lt then
    brandModel lt (S "galaxy") (S "Galaxy") { st with make := some (S "Samsung") }
  else st

/-- Lines 239-240: the nikon check (make only). -/
def deviceNikon (lt : Str) (st : Structured) : Structured :=
  if containsSub (S "nikon") lt then { st with make := some (S "Nikon") } else st

/-- Lines 241-242: the canon check (make only). -/
def deviceCanon (lt : Str) (st : Structured) : Structured :=
  if containsSub (S "canon") lt then { st with make := some (S "Canon") } else st

/-- Lines 243-244: the sony check (make only). -/
def deviceSony (lt : Str) (st : Structured) : Structured :=
  if containsSub (S "sony") lt then { st with make := some (S "Sony") } else st

/-- Lines 211-244: brand keyword checks, in source order. -/
def deviceStep (lt : Str) (st : Structured) : Structured :=
  deviceSony lt (deviceCanon lt (deviceNikon lt (deviceGalaxy lt (devicePixel lt (deviceIphone lt st)))))

/-! ## Filter assembly (lines 248-278) -/

/-- JSON values occurring in the payload. -/
inductive JVal where
  | s : Str → JVal
  | b : Bool → JVal
  | null : JVal
deriving DecidableEq, Repr

/-- A nullable string field as a JSON value. -/
def optJ : Option Str → JVal
  | none => JVal.null
  | some v => JVal.s v

/-- Lines 248-259: the `immich_body` entries before the final `query` key, in
source order. -/
def immichHead (st : Structured) : List (Str × JVal) :=
  [ (S "city", optJ st.city),
    (S "country", optJ st.country),
    (S "createdAfter", optJ st.createdAfter),
    (S "createdBefore", optJ st.createdBefore),
    (S "takenAfter", optJ st.takenAfter),
    (S "takenBefore", optJ st.takenBefore),
    (S "isArchived", JVal.b st.isArchived),
    (S "isFavorite", JVal.b st.isFavorite),
    (S "isMotion", JVal.b st.isMotion),
    (S "make", optJ st.make),
    (S "model", optJ st.model) ]

/-- Lines 248-262: the `immich_body` dict, in source key order; the `query`
key carries `remainingQuery` and comes last. -/
def immich_body (st : Structured) : List (Str × JVal) :=
  immichHead st ++ [(S "query", JVal.s st.remainingQuery)]

/-- Line 265: `v not in (None, "", False, [])`. -/
def keepVal : JVal → Bool
  | JVal.null => false
  | JVal.s [] => false
  | JVal.b false => false
  | _ => true

/-- Line 265: the filtered payload. -/
def filteredBody (st : Structured) : List (Str × JVal) :=
  (immich_body st).filter (fun kv => keepVal kv.2)

/-- Uppercase hexadecimal digit. -/
def hexUp : Nat → Char
  | 0 => '0' | 1 => '1' | 2 => '2' | 3 => '3' | 4 => '4' | 5 => '5' | 6 => '6' | 7 => '7'
  | 8 => '8' | 9 => '9' | 10 => 'A' | 11 => 'B' | 12 => 'C' | 13 => 'D' | 14 => 'E' | _ => 'F'

/-- `json.dumps` escaping of one character (`ensure_ascii` escapes everything
outside printable ASCII as `\uXXXX`; codepoints here stay in the BMP). -/
def escChar (c : Char) : Str :=
  if c = '"' then ['\\', '"']
  else if c = '\\' then ['\\', '\\']
  else if c = '\n' then ['\\', 'n']
  else if c = '\t' then ['\\', 't']
  else if c = '\r' then ['\\', 'r']
  else if c = '\x08' then ['\\', 'b']
  else if c = '\x0c' then ['\\', 'f']
  else if c.toNat < 32 || c.toNat > 126 then
    ['\\', 'u', hexUp (c.toNat / 4096 % 16), hexUp (c.toNat / 256 % 16), hexUp (c.toNat / 16 % 16), hexUp (c.toNat % 16)]
  else [c]

/-- A JSON string literal. -/
def jstr (s : Str) : Str := '"' :: (s.map escChar).flatten ++ ['"']

/-- One JSON value. -/
def dumpVal : JVal → Str
  | JVal.s v => jstr v
  | JVal.b true => S "true"
  | JVal.b false => S "false"
  | JVal.null => S "null"

/-- Line 268: `json.dumps` of the (ordered) payload dict, with Python's
default `", "` and `": "` separators. -/
def jsonDumps (l : List (Str × JVal)) : Str :=
  '\x7b' :: List.intercalate (S ", ") (l.map (fun kv => jstr kv.1 ++ S ": " ++ dumpVal kv.2)) ++ ['\x7d']

/-- `urllib.parse.quote` keeps ASCII alphanumerics, `_.-~` and the default
safe character `/`. -/
def quoteSafe (c : Char) : Bool :=
  (('A' ≤ c && c ≤ 'Z') || ('a' ≤ c && c ≤ 'z') || ('0' ≤ c && c ≤ '9')) ||
  (c = '_' || c = '.' || c = '-' || c = '~' || c = '/')

/-- UTF-8 bytes of one character. -/
def utf8Bytes (c : Char) : List Nat :=
  let n := c.toNat
  if n < 128 then [n]
  else if n < 2048 then [192 + n / 64, 128 + n % 64]
  else if n < 65536 then [224 + n / 4096, 128 + n / 64 % 64, 128 + n % 64]
  else [240 + n / 262144, 128 + n / 4096 % 64, 128 + n / 64 % 64, 128 + n % 64]

/-- Line 271: `urllib.parse.quote`. -/
def pyQuote (s : Str) : Str :=
  (s.map (fun c =>
    if quoteSafe c then [c]
    else ((utf8Bytes c).map (fun byte => ['%', hexUp (byte / 16), hexUp (byte % 16)])).flatten)).flatten

/-- Line 268: the serialized payload string (`payload_str`). -/
def payloadStr (st : Structured) : Str := jsonDumps (filteredBody st)

/-- Line 271: the percent-encoded payload (`encoded_payload`). -/
def encodedPayload (st : Structured) : Str := pyQuote (payloadStr st)

/-! ## The full pipeline (lines 43-278) -/

/-- Lines 43-244: the `structured` dict after all four steps; `none` models an
uncaught exception escaping the handler. -/
def structuredOf (O : Oracles) (user_text : Str) : Option Structured :=
  let lowered_text := lowerStr user_text
  let st := flagsStep lowered_text (initStructured user_text)
  match dateRangeStep O lowered_text st with
  | none => none
  | some st =>
    let st := locationStep O user_text st
    some (deviceStep lowered_text st)

/-- Lines 43-278: `parse_query`.  Line 278 returns the single-key dict
`{"query": encoded_payload}`; `none` models an uncaught exception. -/
def parse_query (O : Oracles) (user_text : Str) : Option (List (Str × Str)) :=
  (structuredOf O user_text).map (fun st => [(S "query", encodedPayload st)])

/-! ## Concrete oracle instances used in closed theorems -/

/-- Trivial oracles: the date parser resolves nothing, the recognizer finds no
entities, the gazetteers are empty, the current year is 2026. -/
def O1 : Oracles :=
  { dateparse := fun _ _ => none, nowYear := 2026, ner := fun _ => [],
    knownStates := fun _ => false, knownCountries := fun _ => false }

/-- Gazetteer oracle recognizing exactly the state name `texas`, with a
recognizer labelling fixed spans; used for the location claims. -/
def O4 : Oracles :=
  { dateparse := fun _ _ => none, nowYear := 2026,
    ner := fun _ => [(S "Austin, Texas", S "GPE")],
    knownStates := fun s => s == S "texas", knownCountries := fun _ => false }

/-- Probing date parser that succeeds exactly when configured with the
`PREFER_DAY_OF_MONTH = "last"` preference. -/
def O5 : Oracles :=
  { dateparse := fun pref _ => if pref == S "last" then some ⟨2024, 3, 1, 12, 0, 0⟩ else none,
    nowYear := 2026, ner := fun _ => [],
    knownStates := fun _ => false, knownCountries := fun _ => false }

/-- Date parser resolving the anchor phrases of the month-range claims the way
`dateparser` does (first day of the month). -/
def O6 : Oracles :=
  { dateparse := fun _ s =>
      if s == S "july 2024" then some ⟨2024, 7, 1, 0, 0, 0⟩
      else if s == S "february 2024" then some ⟨2024, 2, 1, 0, 0, 0⟩
      else if s == S "jan 5" then some ⟨2026, 1, 5, 0, 0, 0⟩
      else none,
    nowYear := 2026, ner := fun _ => [],
    knownStates := fun _ => false, knownCountries := fun _ => false }

example : structuredOf O1 (S "dogs") = some (initStructured (S "dogs")) := by decide
example : parse_query O1 (S "a from b1 to c") = none := by decide
example : (structuredOf O1 (S "")).map filteredBody = some [] := by decide
example : parse_query O1 (S "") = some [(S "query", S "%7B%7D")] := by decide
example : (structuredOf O1 (S "archived")).map payloadStr
    = some (S "\x7b\"isArchived\": true, \"query\": \"archived\"\x7d") := by decide
example : parse_query O1 (S "archived")
    = some [(S "query", S "%7B%22isArchived%22%3A%20true%2C%20%22query%22%3A%20%22archived%22%7D")] := by decide
example : (structuredOf O4 (S "Austin, Texas pics")).map (fun st => (st.city, st.state, st.country))
    = some (some (S "Austin"), some (S "Texas"), none) := by decide
example : (locationEnt O4 (initStructured []) (S "Austin Texas")).country = some (S "United States") := by decide
example : (structuredOf O6 (S "pics from jan 5 to july 2024")).map (fun st => (st.takenAfter, st.takenBefore))
    = some (some (S "2026-01-05"), some (S "2024-07-31")) := by decide
example : (structuredOf O6 (S "pics from jan 5 to february 2024")).map (fun st => (st.takenAfter, st.takenBefore))
    = some (some (S "2026-01-05"), some (S "2024-02-29")) := by decide
example : (structuredOf O1 (S "dogs in 2022")).map (fun st => (st.takenAfter, st.takenBefore))
    = some (some (S "2022-01-01"), some (S "2022-12-31")) := by decide
example : parse_query O1 (S "photos in 0000") = none := by decide
example : yearBranch (S "in 0005") (initStructured [])
    = some { initStructured [] with takenAfter := some (S "5-01-01"), takenBefore := some (S "5-12-31") } := by decide
example : (deviceStep (lowerStr (S "taken with iphone 15 sony")) (initStructured [])).make = some (S "Sony") := by decide
example : (deviceStep (lowerStr (S "taken with iphone 15 sony")) (initStructured [])).model = some (S "iPhone 15") := by decide

/-! ## Helper lemmas: substrings, replacement, search -/

theorem isPrefixOf_append_self (a b : Str) : a.isPrefixOf (a ++ b) = true := by
  induction a with
  | nil => simp [List.isPrefixOf]
  | cons c a ih => simp [List.isPrefixOf, ih]

theorem containsSub_append_right (pat a s : Str) (h : containsSub pat s = true) :
    containsSub pat (a ++ s) = true := by
  induction a with
  | nil => simpa using h
  | cons c a ih => simp [containsSub, ih]

theorem containsSub_here (pat b : Str) : containsSub pat (pat ++ b) = true := by
  have hp := isPrefixOf_append_self pat b
  cases hq : pat ++ b with
  | nil => cases pat <;> simp_all [containsSub]
  | cons c rest => rw [hq] at hp; simp [containsSub, hp]

theorem replaceAllGo_not_contains (old new : Str) (s : Str) :
    ∀ fuel, containsSub old s = false → replaceAllGo old new fuel s = s := by
  induction s with
  | nil => intro fuel _; cases fuel <;> rfl
  | cons c rest ih =>
    intro fuel h
    simp only [containsSub, Bool.or_eq_false_iff] at h
    cases fuel with
    | zero => rfl
    | succ fuel => simp [replaceAllGo, h.1, ih fuel h.2]

theorem replaceAllGo_append (old new b : Str) :
    ∀ (a : Str) (fuel : Nat), (∀ i, i < a.length → old.isPrefixOf ((a ++ b).drop i) = false) →
    replaceAllGo old new (a.length + fuel) (a ++ b) = a ++ replaceAllGo old new fuel b := by
  intro a
  induction a with
  | nil => intro fuel _; simp
  | cons c a ih =>
    intro fuel h
    have hz : old.isPrefixOf (c :: (a ++ b)) = false := by
      simpa using h 0 (by simp)
    have hstep : (c :: a).length + fuel = (a.length + fuel) + 1 := by
      simp [Nat.succ_add]
    rw [List.cons_append, hstep]
    have hone : replaceAllGo old new ((a.length + fuel) + 1) (c :: (a ++ b)) =
        c :: replaceAllGo old new (a.length + fuel) (a ++ b) := by
      simp [replaceAllGo, hz]
    rw [hone, ih fuel (fun i hi => by
      have := h (i + 1) (by simpa using Nat.succ_lt_succ hi)
      simpa [List.drop_succ_cons] using this)]
    rfl

theorem replaceAllGo_head (old new b : Str) (fuel : Nat) (hne : old ≠ []) :
    replaceAllGo old new (fuel + 1) (old ++ b) = new ++ replaceAllGo old new fuel b := by
  cases old with
  | nil => exact absurd rfl hne
  | cons o os =>
    have hp : (o :: os).isPrefixOf ((o :: os) ++ b) = true := isPrefixOf_append_self _ _
    simp only [List.cons_append] at hp
    simp [replaceAllGo, hp, List.drop_left]

theorem replaceAll_not_contains (old new s : Str) (h : containsSub old s = false) :
    replaceAll old new s = s :=
  replaceAllGo_not_contains old new s s.length h

/-- `replace` on a string with exactly one occurrence of `old`, sitting after
`p`: the occurrence is replaced and nothing else changes. -/
theorem replaceAll_single (old new p rest : Str) (hne : old ≠ [])
    (hb : ∀ i, i < p.length → old.isPrefixOf ((p ++ (old ++ rest)).drop i) = false)
    (hr : containsSub old rest = false) :
    replaceAll old new (p ++ (old ++ rest)) = p ++ (new ++ rest) := by
  have hlen : (p ++ (old ++ rest)).length = p.length + (old ++ rest).length := by simp
  unfold replaceAll
  rw [hlen, replaceAllGo_append old new (old ++ rest) p ((old ++ rest).length) hb]
  have h2 : (old ++ rest).length = (old.length - 1 + rest.length) + 1 := by
    cases old with
    | nil => exact absurd rfl hne
    | cons o os => simp [Nat.succ_add]
  rw [h2, replaceAllGo_head old new rest _ hne,
    replaceAllGo_not_contains old new rest _ hr]

theorem findSub_append (pat b : Str) (hpre : pat.isPrefixOf b = true) :
    ∀ a : Str, (∀ i, i < a.length → pat.isPrefixOf ((a ++ b).drop i) = false) →
    findSub pat (a ++ b) = some a.length := by
  intro a
  induction a with
  | nil =>
    intro _
    cases b with
    | nil => simp [findSub, hpre]
    | cons c rest => simp [findSub, hpre]
  | cons c a ih =>
    intro h
    have hz : pat.isPrefixOf (c :: (a ++ b)) = false := by
      simpa using h 0 (by simp)
    rw [List.cons_append]
    have hone : findSub pat (c :: (a ++ b)) = (findSub pat (a ++ b)).map (· + 1) := by
      simp [findSub, hz]
    rw [hone, ih (fun i hi => by
      have := h (i + 1) (by simpa using Nat.succ_lt_succ hi)
      simpa [List.drop_succ_cons] using this)]
    rfl

theorem splitOnce_char_boundary (c : Char) (r : Str) :
    ∀ a : Str, (∀ d ∈ a, d ≠ c) → splitOnce [c] (a ++ c :: r) = some (a, r) := by
  intro a
  induction a with
  | nil => intro _; simp [splitOnce, List.isPrefixOf]
  | cons d a ih =>
    intro h
    have hd : d ≠ c := h d (by simp)
    have hdc : (c == d) = false := beq_eq_false_iff_ne.mpr (Ne.symm hd)
    rw [List.cons_append]
    have hone : splitOnce [c] (d :: (a ++ c :: r)) =
        (splitOnce [c] (a ++ c :: r)).map (fun p => (d :: p.1, p.2)) := by
      simp [splitOnce, List.isPrefixOf, hdc]
    rw [hone, ih (fun e he => h e (by simp [he]))]
    rfl

theorem digitChar_ne_T (n : Nat) : digitChar n ≠ 'T' := by
  unfold digitChar; split <;> decide

theorem pad2_no_T (n : Nat) : ∀ c ∈ pad2 n, c ≠ 'T' := by
  intro c hc
  simp only [pad2, List.mem_cons, List.not_mem_nil, or_false] at hc
  rcases hc with h | h <;> subst h <;> exact digitChar_ne_T _

theorem pad4_no_T (n : Nat) : ∀ c ∈ pad4 n, c ≠ 'T' := by
  intro c hc
  simp only [pad4, List.mem_cons, List.not_mem_nil, or_false] at hc
  rcases hc with h | h | h | h <;> subst h <;> exact digitChar_ne_T _

theorem fmtDate_no_T (y m d : Nat) : ∀ c ∈ fmtDate y m d, c ≠ 'T' := by
  intro c hc
  simp only [fmtDate, List.mem_append, List.mem_cons] at hc
  rcases hc with (h | h | h) | h | h
  · exact pad4_no_T y c h
  · subst h; decide
  · exact pad2_no_T m c h
  · subst h; decide
  · exact pad2_no_T d c h

theorem splitT_isoformat (d : PyDateTime) :
    splitTfirst (isoformat d) = fmtDate d.year d.month d.day := by
  unfold splitTfirst isoformat
  have hS : S "T" = ['T'] := rfl
  rw [hS, splitOnce_char_boundary 'T' _ _ (fmtDate_no_T d.year d.month d.day)]

/-! ## Helper lemmas: which fields each step can touch -/

/-- The fields the Location Resolver never writes. -/
def nonLocT (st : Structured) :=
  (st.createdAfter, st.createdBefore, st.takenAfter, st.takenBefore,
   st.isArchived, st.isFavorite, st.isMotion, st.make, st.model, st.remainingQuery)

/-- The fields the Device Inferencer never writes. -/
def nonDevT (st : Structured) :=
  (st.city, st.state, st.country, st.createdAfter, st.createdBefore,
   st.takenAfter, st.takenBefore, st.isArchived, st.isFavorite, st.isMotion, st.remainingQuery)

/-- The fields the Range Extractor never writes. -/
def nonDateT (st : Structured) :=
  (st.city, st.state, st.country, st.createdAfter, st.createdBefore,
   st.isArchived, st.isFavorite, st.isMotion, st.make, st.model, st.remainingQuery)

theorem flagsStep_eq (lt : Str) (st : Structured) :
    flagsStep lt st =
      { st with
         isArchived := st.isArchived || containsSub (S "archived") lt,
         isFavorite := st.isFavorite || (containsSub (S "favorite") lt || containsSub (S "favourite") lt),
         isMotion := st.isMotion || containsSub (S "motion") lt } := by
  unfold flagsStep
  cases hA : containsSub (S "archived") lt <;>
    cases hF : (containsSub (S "favorite") lt || containsSub (S "favourite") lt) <;>
      cases hM : containsSub (S "motion") lt <;> simp [hA, hF, hM]

theorem dateRangeStep_nonDate (O : Oracles) (lt : Str) (st st2 : Structured)
    (h : dateRangeStep O lt st = some st2) : nonDateT st2 = nonDateT st := by
  unfold dateRangeStep explicitRangeBranch explicitCore yearBranch at h
  split at h
  · split at h
    · exact Option.noConfusion h
    · split at h
      · cases Option.some.inj h; rfl
      · split at h
        · exact Option.noConfusion h
        · split at h
          · cases Option.some.inj h; rfl
          · split at h
            · exact Option.noConfusion h
            · cases Option.some.inj h; rfl
  · split at h
    · split at h
      · split at h
        · exact Option.noConfusion h
        · cases Option.some.inj h; rfl
      · cases Option.some.inj h; rfl
    · cases Option.some.inj h; rfl

theorem locNoCommaGo_nonLoc (O : Oracles) :
    ∀ (parts city_parts : List Str) (sc : Option Str) (st : Structured),
    nonLocT (locNoCommaGo O parts city_parts sc st).2.2 = nonLocT st := by
  intro parts
  induction parts with
  | nil => intro _ _ _; rfl
  | cons part rest ih =>
    intro cps sc st
    cases hs : O.knownStates (lowerStr part) with
    | true =>
      rw [show locNoCommaGo O (part :: rest) cps sc st = locNoCommaGo O rest cps (some part) st from by
        simp [locNoCommaGo, hs]]
      exact ih _ _ _
    | false =>
      cases hc : O.knownCountries (lowerStr part) with
      | false =>
        rw [show locNoCommaGo O (part :: rest) cps sc st = locNoCommaGo O rest (cps ++ [part]) sc st from by
          simp [locNoCommaGo, hs, hc]]
        exact ih _ _ _
      | true =>
        rw [show locNoCommaGo O (part :: rest) cps sc st =
            locNoCommaGo O rest cps sc (if st.country = none then { st with country := some part } else st) from by
          simp [locNoCommaGo, hs, hc]]
        refine (ih _ _ _).trans ?_
        split <;> rfl

theorem locationEnt_nonLoc (O : Oracles) (st : Structured) (txt : Str) :
    nonLocT (locationEnt O st txt) = nonLocT st := by
  unfold locationEnt
  by_cases hc : containsSub (S ",") txt = true
  · rw [if_pos hc]
    dsimp only
    (repeat' split) <;> rfl
  · rw [if_neg hc]
    dsimp only
    (repeat' split) <;> exact locNoCommaGo_nonLoc O _ _ _ _

theorem locationStep_nonLoc (O : Oracles) (t : Str) (st : Structured) :
    nonLocT (locationStep O t st) = nonLocT st := by
  unfold locationStep
  generalize O.ner t = ents
  induction ents generalizing st with
  | nil => rfl
  | cons e rest ih =>
    rw [List.foldl_cons]
    refine (ih _).trans ?_
    split
    · exact locationEnt_nonLoc O st e.1
    · rfl

theorem brandModel_nonDev (lt k m : Str) (st : Structured) :
    nonDevT (brandModel lt k m st) = nonDevT st := by
  unfold brandModel
  (repeat' split) <;> rfl

theorem deviceIphone_nonDev (lt : Str) (st : Structured) :
    nonDevT (deviceIphone lt st) = nonDevT st := by
  unfold deviceIphone
  split
  · exact (brandModel_nonDev _ _ _ _).trans rfl
  · rfl

theorem devicePixel_nonDev (lt : Str) (st : Structured) :
    nonDevT (devicePixel lt st) = nonDevT st := by
  unfold devicePixel
  split
  · exact (brandModel_nonDev _ _ _ _).trans rfl
  · rfl

theorem deviceGalaxy_nonDev (lt : Str) (st : Structured) :
    nonDevT (deviceGalaxy lt st) = nonDevT st := by
  unfold deviceGalaxy
  split
  · exact (brandModel_nonDev _ _ _ _).trans rfl
  · rfl

theorem deviceNikon_nonDev (lt : Str) (st : Structured) :
    nonDevT (deviceNikon lt st) = nonDevT st := by
  unfold deviceNikon; split <;> rfl

theorem deviceCanon_nonDev (lt : Str) (st : Structured) :
    nonDevT (deviceCanon lt st) = nonDevT st := by
  unfold deviceCanon; split <;> rfl

theorem deviceSony_nonDev (lt : Str) (st : Structured) :
    nonDevT (deviceSony lt st) = nonDevT st := by
  unfold deviceSony; split <;> rfl

theorem deviceStep_nonDev (lt : Str) (st : Structured) :
    nonDevT (deviceStep lt st) = nonDevT st := by
  unfold deviceStep
  exact (deviceSony_nonDev _ _).trans ((deviceCanon_nonDev _ _).trans
    ((deviceNikon_nonDev _ _).trans ((deviceGalaxy_nonDev _ _).trans
      ((devicePixel_nonDev _ _).trans (deviceIphone_nonDev _ _)))))

/-- Fields of the structured result that survive to the end of the pipeline:
`remainingQuery` is the original text, the three flags are exactly the
keyword-presence tests on the lowercased text, and the `created*` fields are
never written by any step. -/
theorem structuredOf_core (O : Oracles) (t : Str) (st2 : Structured)
    (h : structuredOf O t = some st2) :
    st2.remainingQuery = t ∧
    st2.isArchived = containsSub (S "archived") (lowerStr t) ∧
    st2.isFavorite = (containsSub (S "favorite") (lowerStr t) || containsSub (S "favourite") (lowerStr t)) ∧
    st2.isMotion = containsSub (S "motion") (lowerStr t) ∧
    st2.createdAfter = none ∧ st2.createdBefore = none := by
  unfold structuredOf at h
  dsimp only at h
  split at h
  case h_1 => exact Option.noConfusion h
  case h_2 stmid heq =>
    cases Option.some.inj h
    have hd := deviceStep_nonDev (lowerStr t) (locationStep O t stmid)
    simp only [nonDevT, Prod.mk.injEq] at hd
    obtain ⟨-, -, -, hdCA, hdCB, -, -, hdA, hdF, hdM, hdR⟩ := hd
    have hl := locationStep_nonLoc O t stmid
    simp only [nonLocT, Prod.mk.injEq] at hl
    obtain ⟨hlCA, hlCB, -, -, hlA, hlF, hlM, -, -, hlR⟩ := hl
    have hg := dateRangeStep_nonDate O (lowerStr t) _ _ heq
    simp only [nonDateT, Prod.mk.injEq] at hg
    obtain ⟨-, -, -, hgCA, hgCB, hgA, hgF, hgM, -, -, hgR⟩ := hg
    have hf := flagsStep_eq (lowerStr t) (initStructured t)
    refine ⟨?_, ?_, ?_, ?_, ?_, ?_⟩
    · rw [hdR, hlR, hgR, hf]; rfl
    · rw [hdA, hlA, hgA, hf]; simp [initStructured]
    · rw [hdF, hlF, hgF, hf]; simp [initStructured]
    · rw [hdM, hlM, hgM, hf]; simp [initStructured]
    · rw [hdCA, hlCA, hgCA, hf]; rfl
    · rw [hdCB, hlCB, hgCB, hf]; rfl

/-- Association-list lookup over the payload, mirroring JSON object key
access. -/
def lookupKV (k : Str) : List (Str × JVal) → Option JVal
  | [] => none
  | kv :: rest => if kv.1 = k then some kv.2 else lookupKV k rest

/-- Looking up the last (distinctly-keyed) entry of a filtered association
list: present exactly when the filter keeps it. -/
theorem lookupKV_filter_last (k : Str) (v : JVal) (p : Str × JVal → Bool) :
    ∀ l : List (Str × JVal), (∀ kv ∈ l, kv.1 ≠ k) →
    lookupKV k ((l ++ [(k, v)]).filter p) = if p (k, v) then some v else none := by
  intro l
  induction l with
  | nil =>
    intro _
    cases hp : p (k, v) with
    | true => simp [List.filter, hp, lookupKV]
    | false => simp [List.filter, hp, lookupKV]
  | cons kv l ih =>
    intro h
    have hk : kv.1 ≠ k := h kv (by simp)
    rw [List.cons_append, List.filter]
    split
    · simp only [lookupKV, if_neg hk]
      exact ih (fun e he => h e (by simp [he]))
    · exact ih (fun e he => h e (by simp [he]))

/-- None of the eleven keys before `query` is the key `query`. -/
theorem immichHead_keys (st : Structured) : ∀ kv ∈ immichHead st, kv.1 ≠ S "query" := by
  intro kv hkv he
  have h1 : kv.1 ∈ (immichHead st).map Prod.fst := List.mem_map_of_mem Prod.fst hkv
  rw [he] at h1
  have h2 : (immichHead st).map Prod.fst =
      [S "city", S "country", S "createdAfter", S "createdBefore", S "takenAfter",
       S "takenBefore", S "isArchived", S "isFavorite", S "isMotion", S "make", S "model"] := rfl
  rw [h2] at h1
  exact absurd h1 (by decide)

/-! ## The claims -/

/-- Claim C1: the claim states that when the natural-language date parser
fails to resolve the leading or trailing date phrase of an explicit range,
the corresponding field is left unset and a payload is still returned.  The
code instead calls `.split("T")[0]` on the `None` that `parse_date_str`
returns, raising `AttributeError`, so no payload is returned at all: on the
input `"a from b1 to c"` with a date parser that resolves neither phrase,
`parse_query` raises (modelled as `none`). -/
theorem C1_crash_on_parse_failure : parse_query O1 (S "a from b1 to c") = none := by decide

/-- Claim C2 (counterexample): for the empty input text the `query` field is
filtered out of the payload like any other empty value — the payload is `{}`
and contains no `query` key — contradicting "`query` is never omitted,
including the empty string". -/
theorem C2_counterexample_empty :
    (structuredOf O1 (S "")).map (fun st => lookupKV (S "query") (filteredBody st)) = some none ∧
    parse_query O1 (S "") = some [(S "query", S "%7B%7D")] := by
  exact ⟨by decide, by decide⟩

/-- Claim C2 (amended): for every input text on which parse completes and
which is nonempty, the payload contains a `query` field holding the original
input text (the empty string falls to the null/empty/false filter like every
other field). -/
theorem C2_query_field (O : Oracles) (t : Str) (st2 : Structured)
    (h : structuredOf O t = some st2) (hne : t ≠ []) :
    lookupKV (S "query") (filteredBody st2) = some (JVal.s t) := by
  have hrq := (structuredOf_core O t st2 h).1
  unfold filteredBody immich_body
  rw [hrq, lookupKV_filter_last (S "query") (JVal.s t) _ (immichHead st2) (immichHead_keys st2)]
  cases t with
  | nil => exact absurd rfl hne
  | cons c ts => simp [keepVal]

/-- Witness for C2: on the input `"a"` the payload's `query` field is the
original text. -/
theorem C2_query_field_witness :
    lookupKV (S "query") (filteredBody (initStructured (S "a"))) = some (JVal.s (S "a")) :=
  C2_query_field O1 (S "a") (initStructured (S "a")) (by decide) (by decide)

/-- Claim C3 (counterexample): on the input `"archived"` the value returned
to the caller is only the percent-encoded serialized payload; the unencoded
serialized value differs from it and is not part of the returned dict,
contradicting "both are returned to the caller". -/
theorem C3_counterexample_encoded_only :
    parse_query O1 (S "archived")
      = some [(S "query", S "%7B%22isArchived%22%3A%20true%2C%20%22query%22%3A%20%22archived%22%7D")] ∧
    (structuredOf O1 (S "archived")).map payloadStr
      = some (S "\x7b\"isArchived\": true, \"query\": \"archived\"\x7d") ∧
    S "%7B%22isArchived%22%3A%20true%2C%20%22query%22%3A%20%22archived%22%7D"
      ≠ S "\x7b\"isArchived\": true, \"query\": \"archived\"\x7d" := by
  exact ⟨by decide, by decide, by decide⟩

/-- Claim C3 (amended): whenever parse completes, the caller receives exactly
one value, the percent-encoded serialized payload, under the key `query`; the
unencoded serialization is not returned. -/
theorem C3_returns_encoded (O : Oracles) (t : Str) (st2 : Structured)
    (h : structuredOf O t = some st2) :
    parse_query O t = some [(S "query", encodedPayload st2)] := by
  unfold parse_query
  rw [h]
  rfl

/-- Witness for C3: the `"archived"` request returns the single encoded
payload string. -/
theorem C3_returns_encoded_witness :
    parse_query O1 (S "archived") = some [(S "query", encodedPayload
      { city := none, state := none, country := none, createdAfter := none, createdBefore := none,
        takenAfter := none, takenBefore := none, isArchived := true, isFavorite := false,
        isMotion := false, make := none, model := none, remainingQuery := S "archived" })] :=
  C3_returns_encoded O1 (S "archived") _ (by decide)

/-- Claim C5 (counterexample): for `end` rounding the underlying date parser
is configured with day-of-month preference `"last"`, not `"first"`: with a
probing parser that succeeds only under the `"last"` preference, the `end`
normalization of `"march 2024"` still succeeds even though the
`"first"`-configured parse fails — so the library-level preference used is
not `"first"`. -/
theorem C5_counterexample_prefer_last :
    parse_date_str O5 (S "march 2024") (S "last") = some (S "2024-03-01T23:59:59") ∧
    O5.dateparse (S "first") (S "march 2024") = none := by
  exact ⟨by decide, by decide⟩

/-- Claim C5 (amended): for every date phrase normalized with `end` rounding,
the underlying parser is configured with day-of-month preference `"last"`
(the `prefer_day` argument is forwarded verbatim), and the time-of-day of a
successfully parsed result is forced to 23:59:59. -/
theorem C5_end_rounding (O : Oracles) (ds : Str) :
    parse_date_str O ds (S "last") =
      (O.dateparse (S "last") (if !hasDigitToken ds then ds ++ ' ' :: natToDigits O.nowYear else ds)).map
        (fun d => isoformat { d with hour := 23, minute := 59, second := 59 }) := by
  unfold parse_date_str
  dsimp only
  cases hdp : O.dateparse (S "last") (if !hasDigitToken ds then ds ++ ' ' :: natToDigits O.nowYear else ds) with
  | none => rfl
  | some dt =>
    have hne : ¬ (S "last") = S "first" := by decide
    simp [hne]

/-- Claim C9: after case folding, `isArchived` holds iff the text contains
`"archived"`, `isFavorite` iff it contains `"favorite"` or `"favourite"`,
`isMotion` iff it contains `"motion"` — whenever parse completes, the final
structured result's flags equal exactly these substring tests on the
lowercased input. -/
theorem C9_flags (O : Oracles) (t : Str) (st2 : Structured)
    (h : structuredOf O t = some st2) :
    st2.isArchived = containsSub (S "archived") (lowerStr t) ∧
    st2.isFavorite = (containsSub (S "favorite") (lowerStr t) || containsSub (S "favourite") (lowerStr t)) ∧
    st2.isMotion = containsSub (S "motion") (lowerStr t) :=
  ⟨(structuredOf_core O t st2 h).2.1, (structuredOf_core O t st2 h).2.2.1,
   (structuredOf_core O t st2 h).2.2.2.1⟩

/-- Witness for C9: `"ARCHIVED favourite"` sets exactly the archived and
favorite flags. -/
theorem C9_flags_witness :
    ({ city := none, state := none, country := none, createdAfter := none, createdBefore := none,
       takenAfter := none, takenBefore := none, isArchived := true, isFavorite := true,
       isMotion := false, make := none, model := none,
       remainingQuery := S "ARCHIVED favourite" } : Structured).isArchived
        = containsSub (S "archived") (lowerStr (S "ARCHIVED favourite")) ∧
    ({ city := none, state := none, country := none, createdAfter := none, createdBefore := none,
       takenAfter := none, takenBefore := none, isArchived := true, isFavorite := true,
       isMotion := false, make := none, model := none,
       remainingQuery := S "ARCHIVED favourite" } : Structured).isFavorite
        = (containsSub (S "favorite") (lowerStr (S "ARCHIVED favourite"))
            || containsSub (S "favourite") (lowerStr (S "ARCHIVED favourite"))) ∧
    ({ city := none, state := none, country := none, createdAfter := none, createdBefore := none,
       takenAfter := none, takenBefore := none, isArchived := true, isFavorite := true,
       isMotion := false, make := none, model := none,
       remainingQuery := S "ARCHIVED favourite" } : Structured).isMotion
        = containsSub (S "motion") (lowerStr (S "ARCHIVED favourite")) :=
  C9_flags O1 (S "ARCHIVED favourite") _ (by decide)

/-- Claim C4 (counterexample): for the comma-separated span `"Austin, Texas"`
the state gazetteer hit yields state = `"Texas"` but no `"United States"`
default is applied — the default exists only in the no-comma branch — so
country stays unset, contradicting "every place-like entity span (comma-
separated or not)". -/
theorem C4_counterexample_comma_no_default :
    (locationEnt O4 (initStructured []) (S "Austin, Texas")).state = some (S "Texas") ∧
    (locationEnt O4 (initStructured []) (S "Austin, Texas")).country = none := by
  exact ⟨by decide, by decide⟩

/-- Claim C4 (amended): for every place-like entity span WITHOUT a comma, if
the token scan finds a (truthy) state-gazetteer hit and no country has been
identified, the country is set to `"United States"`. -/
theorem C4_state_implies_us (O : Oracles) (st : Structured) (txt : Str)
    (cps : List Str) (sc : Option Str) (st1 : Structured)
    (hcomma : containsSub (S ",") txt = false)
    (hscan : locNoCommaScan O st (splitWsPy txt) = (cps, sc, st1))
    (hsc : pyTruthyOpt sc = true)
    (hcountry : st1.country = none) :
    (locationEnt O st txt).country = some (S "United States") := by
  unfold locationEnt
  rw [if_neg (by simp [hcomma])]
  dsimp only
  rw [hscan]
  dsimp only
  split <;> split <;> simp [hsc, hcountry]

/-- Witness for C4: the span `"Austin Texas"` (no comma) gets the
state-implies-US default. -/
theorem C4_state_implies_us_witness :
    locNoCommaScan O4 (initStructured []) (splitWsPy (S "Austin Texas"))
      = ([S "Austin"], some (S "Texas"), initStructured []) ∧
    (locationEnt O4 (initStructured []) (S "Austin Texas")).country = some (S "United States") :=
  ⟨by decide,
   C4_state_implies_us O4 (initStructured []) (S "Austin Texas")
     [S "Austin"] (some (S "Texas")) (initStructured [])
     (by decide) (by decide) (by decide) (by decide)⟩

/-- Claim C6: in the explicit-range path, whenever the trailing anchor phrase
parses successfully (and the leading date parse does not raise), the end date
is the last calendar day of the anchor's month and year, computed through
`calendar.monthrange` (hence calendar-correct including leap years). -/
theorem C6_month_end (O : Oracles) (lt : Str) (st : Structured)
    (b0 after raw1 raw2 : Str) (d : PyDateTime) (s1 : Str)
    (h1 : splitOnce (S " from ") (normalizeText lt) = some (b0, after))
    (h2 : splitOnce (S " to ") after = some (raw1, raw2))
    (h3 : O.dateparse (S "first") (endCandidate raw2) = some d)
    (h4 : parse_date_str O (startPhrase O (some d) (stripPy raw1)) (S "first") = some s1) :
    explicitRangeBranch O lt st = some { st with
      takenAfter := some (splitTfirst s1),
      takenBefore := some (fmtDate d.year d.month (monthrangeDays d.year d.month)) } := by
  unfold explicitRangeBranch explicitCore
  rw [h1]
  dsimp only
  rw [h2]
  dsimp only
  rw [h3, h4]
  dsimp only
  rw [splitT_isoformat]

/-- Witness for C6: anchor `"july 2024"` closes the range at `"2024-07-31"`
and anchor `"february 2024"` at `"2024-02-29"` (leap year). -/
theorem C6_month_end_witness :
    explicitRangeBranch O6 (S "x from jan 5 to july 2024") (initStructured [])
      = some { initStructured [] with
                takenAfter := some (S "2026-01-05"), takenBefore := some (S "2024-07-31") } ∧
    explicitRangeBranch O6 (S "x from jan 5 to february 2024") (initStructured [])
      = some { initStructured [] with
                takenAfter := some (S "2026-01-05"), takenBefore := some (S "2024-02-29") } :=
  ⟨(C6_month_end O6 (S "x from jan 5 to july 2024") (initStructured [])
      (S "x") (S "jan 5 to july 2024") (S "jan 5") (S "july 2024")
      ⟨2024, 7, 1, 0, 0, 0⟩ (S "2026-01-05T00:00:00")
      (by decide) (by decide) (by decide) (by decide)).trans (by decide),
   (C6_month_end O6 (S "x from jan 5 to february 2024") (initStructured [])
      (S "x") (S "jan 5 to february 2024") (S "jan 5") (S "february 2024")
      ⟨2024, 2, 1, 0, 0, 0⟩ (S "2026-01-05T00:00:00")
      (by decide) (by decide) (by decide) (by decide)).trans (by decide)⟩

/-- Claim C7: at most one date-range strategy applies: when the explicit
pattern matches, the result is the explicit branch result (even if the
bare-year regex would also match); the bare-year branch (itself fallible:
a matched year `0000` raises) runs only when the explicit pattern fails; and
when neither pattern matches, none of the four date fields is ever set on
the final structured result. -/
theorem C7_priority (O : Oracles) (lt : Str) (st : Structured) (t : Str) (s2 : Structured) :
    (explicitCond lt = true → dateRangeStep O lt st = explicitRangeBranch O lt st) ∧
    (explicitCond lt = false → yearCond lt = true → dateRangeStep O lt st = yearBranch lt st) ∧
    (explicitCond (lowerStr t) = false → yearCond (lowerStr t) = false →
      structuredOf O t = some s2 →
      s2.takenAfter = none ∧ s2.takenBefore = none ∧
      s2.createdAfter = none ∧ s2.createdBefore = none) := by
  refine ⟨?_, ?_, ?_⟩
  · intro h; simp [dateRangeStep, h]
  · intro h1 h2; simp [dateRangeStep, h1, h2]
  · intro hE hY hS
    obtain ⟨-, -, -, -, hCA, hCB⟩ := structuredOf_core O t s2 hS
    unfold structuredOf at hS
    dsimp only at hS
    rw [show dateRangeStep O (lowerStr t) (flagsStep (lowerStr t) (initStructured t))
        = some (flagsStep (lowerStr t) (initStructured t)) from by
      simp [dateRangeStep, hE, hY]] at hS
    cases Option.some.inj hS
    have hd := deviceStep_nonDev (lowerStr t) (locationStep O t (flagsStep (lowerStr t) (initStructured t)))
    simp only [nonDevT, Prod.mk.injEq] at hd
    obtain ⟨-, -, -, -, -, hdTA, hdTB, -, -, -, -⟩ := hd
    have hl := locationStep_nonLoc O t (flagsStep (lowerStr t) (initStructured t))
    simp only [nonLocT, Prod.mk.injEq] at hl
    obtain ⟨-, -, hlTA, hlTB, -, -, -, -, -, -⟩ := hl
    refine ⟨?_, ?_, hCA, hCB⟩
    · rw [hdTA, hlTA, flagsStep_eq]; rfl
    · rw [hdTB, hlTB, flagsStep_eq]; rfl

/-- Witness for C7: with both patterns present the explicit branch wins; with
only the year pattern the year branch runs; with neither (`"dogs"`) the final
structured result has no date fields. -/
theorem C7_priority_witness :
    dateRangeStep O1 (S "a from b to c in 2022") (initStructured [])
      = explicitRangeBranch O1 (S "a from b to c in 2022") (initStructured []) ∧
    dateRangeStep O1 (S "dogs in 2022") (initStructured [])
      = yearBranch (S "dogs in 2022") (initStructured []) ∧
    (initStructured (S "dogs")).takenAfter = none ∧
    (initStructured (S "dogs")).takenBefore = none ∧
    (initStructured (S "dogs")).createdAfter = none ∧
    (initStructured (S "dogs")).createdBefore = none :=
  ⟨(C7_priority O1 (S "a from b to c in 2022") (initStructured []) (S "dogs")
      (initStructured (S "dogs"))).1 (by decide),
   (C7_priority O1 (S "dogs in 2022") (initStructured []) (S "dogs")
      (initStructured (S "dogs"))).2.1 (by decide) (by decide),
   (C7_priority O1 (S "x") (initStructured []) (S "dogs")
      (initStructured (S "dogs"))).2.2 (by decide) (by decide) (by decide)⟩

/-- Claim C8: two input texts that differ only in range phrasing — one using
`" from X to Y"`, the other `" between X and Y"` — with the connective tokens
occurring nowhere else, normalize to the same `"from X to Y"` shape and yield
identical date-range results (hence identical takenAfter/takenBefore). -/
theorem C8_phrasing_equiv (O : Oracles) (st : Structured) (p x y : Str)
    (h1 : containsSub (S " through ") (p ++ (S " from " ++ (x ++ (S " to " ++ y)))) = false)
    (h2 : containsSub (S " between ") (p ++ (S " from " ++ (x ++ (S " to " ++ y)))) = false)
    (h3 : containsSub (S " and ") (p ++ (S " from " ++ (x ++ (S " to " ++ y)))) = false)
    (h4 : containsSub (S " through ") (p ++ (S " between " ++ (x ++ (S " and " ++ y)))) = false)
    (h5 : ∀ i, i < p.length →
      (S " between ").isPrefixOf ((p ++ (S " between " ++ (x ++ (S " and " ++ y)))).drop i) = false)
    (h6 : containsSub (S " between ") (x ++ (S " and " ++ y)) = false)
    (h7 : ∀ i, i < (p ++ (S " from " ++ x)).length →
      (S " and ").isPrefixOf (((p ++ (S " from " ++ x)) ++ (S " and " ++ y)).drop i) = false)
    (h8 : containsSub (S " and ") y = false) :
    dateRangeStep O (p ++ (S " from " ++ (x ++ (S " to " ++ y)))) st =
    dateRangeStep O (p ++ (S " between " ++ (x ++ (S " and " ++ y)))) st := by
  have n1 : normalizeText (p ++ (S " from " ++ (x ++ (S " to " ++ y))))
      = p ++ (S " from " ++ (x ++ (S " to " ++ y))) := by
    unfold normalizeText
    rw [replaceAll_not_contains _ _ _ h1, replaceAll_not_contains _ _ _ h2,
      replaceAll_not_contains _ _ _ h3]
  have e1 : replaceAll (S " through ") (S " to ") (p ++ (S " between " ++ (x ++ (S " and " ++ y))))
      = p ++ (S " between " ++ (x ++ (S " and " ++ y))) :=
    replaceAll_not_contains _ _ _ h4
  have e2 : replaceAll (S " between ") (S " from ") (p ++ (S " between " ++ (x ++ (S " and " ++ y))))
      = p ++ (S " from " ++ (x ++ (S " and " ++ y))) :=
    replaceAll_single (S " between ") (S " from ") p (x ++ (S " and " ++ y)) (by decide) h5 h6
  have e3 : replaceAll (S " and ") (S " to ") (p ++ (S " from " ++ (x ++ (S " and " ++ y))))
      = p ++ (S " from " ++ (x ++ (S " to " ++ y))) := by
    have hs := replaceAll_single (S " and ") (S " to ") (p ++ (S " from " ++ x)) y (by decide) h7 h8
    have ea : (p ++ (S " from " ++ x)) ++ (S " and " ++ y)
        = p ++ (S " from " ++ (x ++ (S " and " ++ y))) := by
      simp [List.append_assoc]
    have eb : (p ++ (S " from " ++ x)) ++ (S " to " ++ y)
        = p ++ (S " from " ++ (x ++ (S " to " ++ y))) := by
      simp [List.append_assoc]
    rw [ea, eb] at hs
    exact hs
  have n2 : normalizeText (p ++ (S " between " ++ (x ++ (S " and " ++ y))))
      = p ++ (S " from " ++ (x ++ (S " to " ++ y))) := by
    unfold normalizeText
    rw [e1, e2, e3]
  have cf : containsSub (S " from ") (p ++ (S " from " ++ (x ++ (S " to " ++ y)))) = true :=
    containsSub_append_right _ p _ (containsSub_here _ _)
  have ct : containsSub (S " to ") (p ++ (S " from " ++ (x ++ (S " to " ++ y)))) = true :=
    containsSub_append_right _ p _ (containsSub_append_right _ _ _
      (containsSub_append_right _ _ _ (containsSub_here _ _)))
  have cb : containsSub (S " between ") (p ++ (S " between " ++ (x ++ (S " and " ++ y)))) = true :=
    containsSub_append_right _ p _ (containsSub_here _ _)
  have ca : containsSub (S " and ") (p ++ (S " between " ++ (x ++ (S " and " ++ y)))) = true :=
    containsSub_append_right _ p _ (containsSub_append_right _ _ _
      (containsSub_append_right _ _ _ (containsSub_here _ _)))
  have ec1 : explicitCond (p ++ (S " from " ++ (x ++ (S " to " ++ y)))) = true := by
    simp [explicitCond, cf, ct]
  have ec2 : explicitCond (p ++ (S " between " ++ (x ++ (S " and " ++ y)))) = true := by
    simp [explicitCond, cb, ca]
  unfold dateRangeStep
  rw [if_pos ec1, if_pos ec2]
  unfold explicitRangeBranch
  rw [n1, n2]

/-- Witness for C8: `"photos from jan 5 to march 10 2024"` and
`"photos between jan 5 and march 10 2024"` yield the same date-range result. -/
theorem C8_phrasing_equiv_witness :
    dateRangeStep O1 (S "photos" ++ (S " from " ++ (S "jan 5" ++ (S " to " ++ S "march 10 2024"))))
        (initStructured []) =
    dateRangeStep O1 (S "photos" ++ (S " between " ++ (S "jan 5" ++ (S " and " ++ S "march 10 2024"))))
        (initStructured []) :=
  C8_phrasing_equiv O1 (initStructured []) (S "photos") (S "jan 5") (S "march 10 2024")
    (by decide) (by decide) (by decide) (by decide) (by decide) (by decide) (by decide) (by decide)

/-- Claim C10: a text containing `"iphone 15"` (setting make and model) and
the later-checked `"sony"` keyword ends with the mismatched pair
make = `"Sony"`, model = `"iPhone 15"`: the later brand overwrites make while
the model keeps the earlier brand's value. -/
theorem C10_mismatched_make_model (st : Structured) (p : Str)
    (hi : ∀ i, i < p.length → (S "iphone").isPrefixOf ((p ++ S "iphone 15 sony").drop i) = false)
    (hpx : containsSub (S "pixel") (p ++ S "iphone 15 sony") = false)
    (hgx : containsSub (S "galaxy") (p ++ S "iphone 15 sony") = false) :
    (deviceStep (p ++ S "iphone 15 sony") st).make = some (S "Sony") ∧
    (deviceStep (p ++ S "iphone 15 sony") st).model = some (S "iPhone 15") := by
  have hiph : containsSub (S "iphone") (p ++ S "iphone 15 sony") = true :=
    containsSub_append_right _ p _ (by decide)
  have hsony : containsSub (S "sony") (p ++ S "iphone 15 sony") = true :=
    containsSub_append_right _ p _ (by decide)
  have hfind : findSub (S "iphone") (p ++ S "iphone 15 sony") = some p.length :=
    findSub_append (S "iphone") (S "iphone 15 sony") (by decide) p hi
  have hdrop : (p ++ S "iphone 15 sony").drop p.length = S "iphone 15 sony" :=
    List.drop_left p _
  have hbrand : brandModel (p ++ S "iphone 15 sony") (S "iphone") (S "iPhone")
      { st with make := some (S "Apple") }
      = { st with make := some (S "Apple"), model := some (S "iPhone" ++ ' ' :: S "15") } := by
    unfold brandModel
    rw [hfind]
    dsimp only
    rw [hdrop, show splitWsPy (S "iphone 15 sony") = [S "iphone", S "15", S "sony"] from by decide]
    dsimp only
    rw [if_pos (by decide : isdigitPy (S "15") = true)]
  have hIst : deviceIphone (p ++ S "iphone 15 sony") st
      = { st with make := some (S "Apple"), model := some (S "iPhone" ++ ' ' :: S "15") } := by
    unfold deviceIphone
    rw [if_pos hiph]
    exact hbrand
  have hPx : ∀ s : Structured, devicePixel (p ++ S "iphone 15 sony") s = s := by
    intro s; unfold devicePixel; rw [if_neg (by simp [hpx])]
  have hGx : ∀ s : Structured, deviceGalaxy (p ++ S "iphone 15 sony") s = s := by
    intro s; unfold deviceGalaxy; rw [if_neg (by simp [hgx])]
  have hSonyMake : ∀ s : Structured, (deviceSony (p ++ S "iphone 15 sony") s).make = some (S "Sony") := by
    intro s; unfold deviceSony; rw [if_pos hsony]
  have hSonyModel : ∀ s : Structured, (deviceSony (p ++ S "iphone 15 sony") s).model = s.model := by
    intro s; unfold deviceSony; split <;> rfl
  have hCanonModel : ∀ s : Structured, (deviceCanon (p ++ S "iphone 15 sony") s).model = s.model := by
    intro s; unfold deviceCanon; split <;> rfl
  have hNikonModel : ∀ s : Structured, (deviceNikon (p ++ S "iphone 15 sony") s).model = s.model := by
    intro s; unfold deviceNikon; split <;> rfl
  constructor
  · unfold deviceStep
    exact hSonyMake _
  · unfold deviceStep
    rw [hSonyModel, hCanonModel, hNikonModel, hGx, hPx, hIst]
    exact (by decide : some (S "iPhone" ++ ' ' :: S "15") = some (S "iPhone 15"))

/-- Witness for C10: `"taken with iphone 15 sony"` ends with make `"Sony"`
and model `"iPhone 15"`. -/
theorem C10_mismatched_make_model_witness :
    (deviceStep (S "taken with " ++ S "iphone 15 sony") (initStructured [])).make = some (S "Sony") ∧
    (deviceStep (S "taken with " ++ S "iphone 15 sony") (initStructured [])).model = some (S "iPhone 15") :=
  C10_mismatched_make_model (initStructured []) (S "taken with ")
    (by decide) (by decide) (by decide)
